import Mathlib

/-!
Shallow embedding of the auto-response decision engine of the
EmaiAutoRespndet repository.

* `src/src/confidence.ts` — signal normalization (`normalizeSignals`),
  whitelists, base scores, and the main gate `decideAutoRespond`.
* `src/state/threadState.ts` — the in-memory per-thread state store.
* `src/handlers/webhookHandler.ts` — the constant threshold the
  orchestrator passes to the engine.

JavaScript strings are modelled as `String` / `List Char`; the JS regular
expressions used by the normalizer (all with the `i` flag, none with
unbounded repetition) are embedded as a small regex AST with an
executable matcher; JS numbers are modelled as `ℚ`.
-/

/-- The closed signal vocabulary of `confidence.ts` (`type Signal`). -/
inductive Signal where
  | explicit_yes
  | send_it
  | send_agreement
  | asks_for_agreement
  | asks_fees
  | interested
  | has_question
  | multi_topic
  | wants_resume_first
  | wants_call_first
  | skeptical
  | role_ambiguous
  | multiple_roles
  | wrong_person
  | out_of_office
  | auto_reply_blank
  | unsubscribe
  | not_interested
  | done_all_set
  | already_signed
deriving DecidableEq, Repr

/-- Apostrophe character (used inside several source regexes). -/
def apos : Char := Char.ofNat 39

/-- JS whitespace for `String.prototype.trim` (common code points). -/
def isJsWhitespace (c : Char) : Bool :=
  c = ' ' || c = Char.ofNat 9 || c = Char.ofNat 10 || c = Char.ofNat 11 ||
  c = Char.ofNat 12 || c = Char.ofNat 13 || c = Char.ofNat 160 || c = Char.ofNat 65279

/-- Model of `text.trim()` on the character list. -/
def trimChars (l : List Char) : List Char :=
  ((l.dropWhile isJsWhitespace).reverse.dropWhile isJsWhitespace).reverse

/-- Model of `s.trim()` for JS strings. -/
def jsTrim (s : String) : String := String.mk (trimChars s.data)

/-- Model of `s.toLowerCase()` (ASCII, which is all the engine relies on). -/
def jsLower (s : String) : String := String.mk (s.data.map Char.toLower)

/-- Regex AST: exactly the constructs occurring in the `RX` table of
`confidence.ts` (alternation, concatenation, `?`, bounded `.{0,n}`,
word boundary `\b`, start anchor `^`, case-insensitive literals). -/
inductive Rx where
  | eps
  | lit (c : Char)
  | dotNN
  | cat (a b : Rx)
  | alt (a b : Rx)
  | opt (a : Rx)
  | wb
  | bos
deriving Repr

/-- Model of `\w` of JS regexes: `[A-Za-z0-9_]`. -/
def isWordChar (c : Char) : Bool := c.isAlphanum || c = '_'

def isWordCharOpt : Option Char → Bool
  | none => false
  | some c => isWordChar c

def isWordCharHead : List Char → Bool
  | [] => false
  | c :: _ => isWordChar c

/-- All possible `(last consumed char, remaining input)` states after
matching `r` starting from state `(p, s)`.  Case-insensitive literal
matching mirrors the `i` flag carried by every `RX` pattern. -/
def Rx.run : Rx → Option Char → List Char → List (Option Char × List Char)
  | .eps, p, s => [(p, s)]
  | .lit _, _, [] => []
  | .lit c, _, d :: rest =>
      if d.toLower = c.toLower then [(some d, rest)] else []
  | .dotNN, _, [] => []
  | .dotNN, _, d :: rest =>
      if d = Char.ofNat 10 then [] else [(some d, rest)]
  | .cat a b, p, s => (Rx.run a p s).flatMap fun q => Rx.run b q.1 q.2
  | .alt a b, p, s => Rx.run a p s ++ Rx.run b p s
  | .opt a, p, s => (p, s) :: Rx.run a p s
  | .wb, p, s => if isWordCharOpt p ≠ isWordCharHead s then [(p, s)] else []
  | .bos, p, s => if p = none then [(p, s)] else []

/-- Try matching at the current position or at any later position
(`RegExp.prototype.test` searches the whole string). -/
def Rx.testFrom (r : Rx) : Option Char → List Char → Bool
  | p, s =>
    !(Rx.run r p s).isEmpty ||
      match s with
      | [] => false
      | c :: rest => Rx.testFrom r (some c) rest

/-- Model of `r.test(s)` of JS. -/
def rtest (r : Rx) (s : List Char) : Bool := Rx.testFrom r none s

/-- Concatenation of a pattern list. -/
def Rx.cats : List Rx → Rx
  | [] => Rx.eps
  | [r] => r
  | r :: rest => Rx.cat r (Rx.cats rest)

/-- Alternation of a pattern list (the lists below are never empty). -/
def Rx.alts : List Rx → Rx
  | [] => Rx.eps
  | [r] => r
  | r :: rest => Rx.alt r (Rx.alts rest)

/-- Literal word as a pattern. -/
def Rx.str (s : String) : Rx := Rx.cats (s.data.map Rx.lit)

/-- Model of `.{0,n}` as nested options. -/
def Rx.dotUpTo : Nat → Rx
  | 0 => Rx.eps
  | n + 1 => Rx.cat (Rx.opt Rx.dotNN) (Rx.dotUpTo n)

/-- Word alternation as a pattern. -/
def Rx.strs (l : List String) : Rx := Rx.alts (l.map Rx.str)

/-- Model of `RX.sendAgreement`:
`(send|share).{0,20}(agreement|contract|docusign|signwell|e-?sign)` -/
def rxSendAgreement : Rx :=
  Rx.cats [Rx.strs ["send", "share"], Rx.dotUpTo 20,
    Rx.alts [Rx.str "agreement", Rx.str "contract", Rx.str "docusign",
      Rx.str "signwell",
      Rx.cats [Rx.str "e", Rx.opt (Rx.lit '-'), Rx.str "sign"]]]

/-- Model of `RX.asksForAgreement`:
`(can you|could you|please|pls).{0,10}(send|share).{0,20}(agreement|contract)` -/
def rxAsksForAgreement : Rx :=
  Rx.cats [Rx.strs ["can you", "could you", "please", "pls"], Rx.dotUpTo 10,
    Rx.strs ["send", "share"], Rx.dotUpTo 20,
    Rx.strs ["agreement", "contract"]]

/-- Model of `RX.sendIt`: `(send it|send over|shoot it over|go ahead and send)` -/
def rxSendIt : Rx :=
  Rx.strs ["send it", "send over", "shoot it over", "go ahead and send"]

/-- Model of `RX.explicitYes`:
`^(yes|yep|yeah|sure|ok|okay|sounds good|go ahead|send it|send|go for it)\b` -/
def rxExplicitYes : Rx :=
  Rx.cats [Rx.bos,
    Rx.strs ["yes", "yep", "yeah", "sure", "ok", "okay", "sounds good",
      "go ahead", "send it", "send", "go for it"],
    Rx.wb]

/-- Model of `RX.explicitNo`: `\b(no|nope|not interested|don't need|not looking|not
hiring|we're not|we aren't|not right now|not at this time)\b` -/
def rxExplicitNo : Rx :=
  Rx.cats [Rx.wb,
    Rx.alts [Rx.str "no", Rx.str "nope", Rx.str "not interested",
      Rx.cats [Rx.str "don", Rx.lit apos, Rx.str "t need"],
      Rx.str "not looking", Rx.str "not hiring",
      Rx.cats [Rx.str "we", Rx.lit apos, Rx.str "re not"],
      Rx.cats [Rx.str "we aren", Rx.lit apos, Rx.str "t"],
      Rx.str "not right now", Rx.str "not at this time"],
    Rx.wb]

/-- Model of `RX.asksFees`: `(fee|fees|charge|pricing|cost|percent|percentage|%)` -/
def rxAsksFees : Rx :=
  Rx.strs ["fee", "fees", "charge", "pricing", "cost", "percent",
    "percentage", "%"]

/-- Model of `RX.wantsResumeFirst` (the full fourteen-branch alternation). -/
def rxWantsResumeFirst : Rx :=
  Rx.alts [
    Rx.cats [Rx.str "send ", Rx.opt (Rx.str "the "), Rx.str "resume"],
    Rx.cats [Rx.str "see ", Rx.opt (Rx.str "the "), Rx.str "resume"],
    Rx.str "resume first",
    Rx.cats [Rx.str "before ", Rx.opt (Rx.str "we "), Rx.str "sign"],
    Rx.cats [Rx.str "show me ", Rx.opt (Rx.str "the "),
      Rx.str "candidates first"],
    Rx.str "profiles first",
    Rx.str "blind resume",
    Rx.cats [Rx.str "send ", Rx.opt (Rx.str "the "), Rx.str "candidates"],
    Rx.cats [Rx.str "see ", Rx.opt (Rx.str "the "), Rx.str "candidates"],
    Rx.cats [Rx.str "show ", Rx.opt (Rx.str "me "), Rx.opt (Rx.str "the "),
      Rx.str "candidates"],
    Rx.cats [Rx.str "want to see ", Rx.opt (Rx.str "the "), Rx.str "resume"],
    Rx.cats [Rx.str "want to see ", Rx.opt (Rx.str "the "),
      Rx.str "candidates"],
    Rx.cats [Rx.str "review ", Rx.opt (Rx.str "the "), Rx.str "candidates"],
    Rx.cats [Rx.str "review ", Rx.opt (Rx.str "the "), Rx.str "resume"]]

/-- Model of `RX.wantsCallFirst` (the full alternation, apostrophes optional as in
`let'?s` and `i'?d`). -/
def rxWantsCallFirst : Rx :=
  Rx.alts [
    Rx.str "call", Rx.str "phone", Rx.str "talk", Rx.str "schedule",
    Rx.str "meeting", Rx.str "zoom", Rx.str "teams", Rx.str "monday",
    Rx.str "tuesday", Rx.str "wednesday", Rx.str "thursday",
    Rx.str "friday", Rx.str "get with me", Rx.str "touch base",
    Rx.str "connect", Rx.str "reach out",
    Rx.cats [Rx.str "set up ", Rx.opt (Rx.str "a "), Rx.str "time"],
    Rx.str "when can we",
    Rx.cats [Rx.str "let", Rx.opt (Rx.lit apos), Rx.str "s ",
      Rx.strs ["talk", "connect", "discuss"]],
    Rx.cats [Rx.str "i", Rx.opt (Rx.lit apos), Rx.str "d like to ",
      Rx.strs ["talk", "discuss", "connect"]]]

/-- Model of `RX.skeptical` (the full alternation, including the bare substrings
`bot`, `ai`, `automation`). -/
def rxSkeptical : Rx :=
  Rx.alts [
    Rx.str "cold email", Rx.str "is this legit", Rx.str "spam",
    Rx.str "do you actually", Rx.str "bot", Rx.str "ai",
    Rx.str "automation",
    Rx.cats [Rx.str "you",
      Rx.alts [Rx.cats [Rx.lit apos, Rx.str "re"], Rx.str " are"],
      Rx.str " in florida"],
    Rx.str "mass email",
    Rx.cats [Rx.str "don", Rx.opt (Rx.lit apos), Rx.str "t know ",
      Rx.strs ["you", "us"]],
    Rx.cats [Rx.str "never heard of ", Rx.strs ["you", "us"]],
    Rx.cats [Rx.str "who are ",
      Rx.alts [Rx.str "you",
        Rx.cats [Rx.str "y", Rx.opt (Rx.lit apos), Rx.str "all"]]],
    Rx.str "what is this about",
    Rx.str "why are you contacting me",
    Rx.str "why did you email me"]

/-- Model of `RX.unsubscribe`:
`(unsubscribe|remove me|stop emailing|do not contact|opt out|no more emails)` -/
def rxUnsubscribe : Rx :=
  Rx.strs ["unsubscribe", "remove me", "stop emailing", "do not contact",
    "opt out", "no more emails"]

/-- Model of `RX.ooo` (the out-of-office alternation). -/
def rxOoo : Rx :=
  Rx.alts [
    Rx.str "out of office", Rx.str "ooo", Rx.str "automatic reply",
    Rx.cats [Rx.str "auto", Rx.opt (Rx.lit '-'), Rx.str "reply"],
    Rx.str "vacation", Rx.str "away from the office",
    Rx.cats [Rx.str "i", Rx.opt (Rx.lit apos), Rx.str "m ",
      Rx.opt (Rx.str "currently "), Rx.str "out"],
    Rx.str "will return",
    Rx.cats [Rx.str "will respond ", Rx.strs ["upon", "when"], Rx.str " ",
      Rx.opt (Rx.str "my "), Rx.str "return"],
    Rx.str "currently unavailable", Rx.str "i will be away",
    Rx.str "i am currently out", Rx.str "out until", Rx.str "back on",
    Rx.str "returning on", Rx.str "away until"]

/-- Model of `RX.doneAllSet`:
`\b(all set|we'?re all set|we'?re good|we'?re covered|no need|good for now)\b` -/
def rxDoneAllSet : Rx :=
  Rx.cats [Rx.wb,
    Rx.alts [Rx.str "all set",
      Rx.cats [Rx.str "we", Rx.opt (Rx.lit apos), Rx.str "re all set"],
      Rx.cats [Rx.str "we", Rx.opt (Rx.lit apos), Rx.str "re good"],
      Rx.cats [Rx.str "we", Rx.opt (Rx.lit apos), Rx.str "re covered"],
      Rx.str "no need", Rx.str "good for now"],
    Rx.wb]

/-- Model of `RX.wrongPerson`: `(wrong person|not the right person|not the hiring
manager|please contact|reach out to)` -/
def rxWrongPerson : Rx :=
  Rx.strs ["wrong person", "not the right person", "not the hiring manager",
    "please contact", "reach out to"]

/-- Model of `RX.alreadySigned` (the full alternation). -/
def rxAlreadySigned : Rx :=
  Rx.alts [
    Rx.str "already signed", Rx.str "signed it",
    Rx.str "signed the agreement",
    Rx.cats [Rx.str "completed ", Rx.opt (Rx.str "the "),
      Rx.str "agreement"],
    Rx.str "already completed", Rx.str "i signed", Rx.str "we signed",
    Rx.str "just signed"]

/-- Model of `uniqueSignals` of `confidence.ts`: `Array.from(new Set(list))`, i.e.
deduplication keeping the first occurrence of each signal. -/
def uniqueAux : List Signal → List Signal → List Signal
  | acc, [] => acc.reverse
  | acc, s :: rest =>
      if acc.contains s then uniqueAux acc rest else uniqueAux (s :: acc) rest

def uniqueSignals (list : List Signal) : List Signal := uniqueAux [] list

/-- The "crude multi-topic detector" of `normalizeSignals`: how many of the
five strong-intent regexes match the (trimmed) text. -/
def strongIntents (text : List Char) : Nat :=
  (if rtest rxSendAgreement text then 1 else 0) +
  (if rtest rxAsksFees text then 1 else 0) +
  (if rtest rxWantsResumeFirst text then 1 else 0) +
  (if rtest rxWantsCallFirst text then 1 else 0) +
  (if rtest rxSkeptical text then 1 else 0)

/-- Model of `normalizeSignals` of `confidence.ts`: merge the (optional) model
signals with the deterministic regex detections, then deduplicate. -/
def normalizeSignals (bodyText : String) (modelSignals : Option (List Signal)) :
    List Signal :=
  let text : List Char := trimChars bodyText.data
  let lower : List Char := text.map Char.toLower
  let sigs : List Signal :=
    (match modelSignals with
     | some l => l
     | none => []) ++
    (if rtest rxUnsubscribe lower then [.unsubscribe] else []) ++
    (if rtest rxOoo lower then [.out_of_office] else []) ++
    (if text.length < 2 then [.auto_reply_blank] else []) ++
    (if text.contains '?' then [.has_question] else []) ++
    (if rtest rxSendAgreement text then [.send_agreement] else []) ++
    (if rtest rxAsksForAgreement text then [.asks_for_agreement] else []) ++
    (if rtest rxSendIt text then [.send_it] else []) ++
    (if rtest rxExplicitYes text then [.explicit_yes] else []) ++
    (if rtest rxExplicitNo text then [.not_interested] else []) ++
    (if rtest rxAsksFees text then [.asks_fees] else []) ++
    (if rtest rxWantsResumeFirst text then [.wants_resume_first] else []) ++
    (if rtest rxWantsCallFirst text then [.wants_call_first] else []) ++
    (if rtest rxSkeptical text then [.skeptical] else []) ++
    (if rtest rxDoneAllSet text then [.done_all_set] else []) ++
    (if rtest rxWrongPerson text then [.wrong_person] else []) ++
    (if rtest rxAlreadySigned text then [.already_signed] else []) ++
    (if 2 ≤ strongIntents text then [.multi_topic] else [])
  uniqueSignals sigs

/-- Model of `AUTO_INTENT_WHITELIST` of `confidence.ts`. -/
def AUTO_INTENT_WHITELIST : List String :=
  ["YES_SEND", "ASK_AGREEMENT", "ASK_FEES_ONLY", "INTERESTED",
   "NOT_INTERESTED", "NOT_HIRING", "NO_JOB_POST", "ROLE_UNCLEAR",
   "ASKING_WHICH_ROLE", "ROLE_CONFIRMED_FOLLOWUP", "FEES_QUESTION",
   "ASK_WEBSITE", "ROLE_CLARIFICATION_MULTI", "GEO_CONCERN",
   "LINK_TO_APPLY", "ASK_COMPANY", "ASK_EXPERIENCE", "ASK_SALARY",
   "ASK_SOURCE", "FORWARD_TO_TEAM", "CHECK_WITH_HR", "CONFUSED_MESSAGE",
   "THANK_YOU", "SINGLE_QUESTION_MARK", "HYBRID_WORK", "PDF_FORMAT",
   "WILL_FORWARD"]

/-- Model of `DEPTH_WHITELIST` of `confidence.ts`. -/
def DEPTH_WHITELIST : List String :=
  ["YES_SEND", "ASK_AGREEMENT", "NOT_INTERESTED", "UNSUBSCRIBE",
   "DONE_ALL_SET"]

/-- Model of `BASE` score table of `confidence.ts` (`BASE[t]` is `none` for a
template with no entry, modelling the absent-key lookup). -/
def BASE (t : String) : Option ℚ :=
  match t with
  | "YES_SEND" => some 0.85
  | "ASK_AGREEMENT" => some 0.85
  | "ASK_FEES_ONLY" => some 0.65
  | "INTERESTED" => some 0.60
  | "NOT_INTERESTED" => some 0.75
  | "NOT_HIRING" => some 0.65
  | "NO_JOB_POST" => some 0.60
  | "ROLE_UNCLEAR" => some 0.55
  | "ASKING_WHICH_ROLE" => some 0.60
  | "ROLE_CONFIRMED_FOLLOWUP" => some 0.70
  | "FEES_QUESTION" => some 0.65
  | "ASK_WEBSITE" => some 0.60
  | "ROLE_CLARIFICATION_MULTI" => some 0.55
  | "GEO_CONCERN" => some 0.55
  | "LINK_TO_APPLY" => some 0.50
  | "ASK_COMPANY" => some 0.60
  | "ASK_EXPERIENCE" => some 0.60
  | "ASK_SALARY" => some 0.60
  | "ASK_SOURCE" => some 0.60
  | "FORWARD_TO_TEAM" => some 0.60
  | "CHECK_WITH_HR" => some 0.60
  | "CONFUSED_MESSAGE" => some 0.60
  | "THANK_YOU" => some 0.60
  | "SINGLE_QUESTION_MARK" => some 0.60
  | "HYBRID_WORK" => some 0.60
  | "PDF_FORMAT" => some 0.60
  | "WILL_FORWARD" => some 0.60
  | _ => none

/-- Model of `ADD` contributions of `confidence.ts`. -/
def ADD_send_agreement : ℚ := 0.50
def ADD_asks_for_agreement : ℚ := 0.50
def ADD_send_it : ℚ := 0.30
def ADD_explicit_yes : ℚ := 0.30
def ADD_interested : ℚ := 0.2
def ADD_asks_fees : ℚ := 0.25
def ADD_short_msg : ℚ := 0.05
def ADD_first_auto_reply : ℚ := 0.05
def ADD_no_question_mark : ℚ := 0.05

/-- Model of `SUB` penalties of `confidence.ts`. -/
def SUB_has_question : ℚ := 0.15
def SUB_multi_topic : ℚ := 0.25
def SUB_wants_resume_first : ℚ := 0.6
def SUB_wants_call_first : ℚ := 0.6
def SUB_skeptical : ℚ := 0.5
def SUB_role_ambiguous : ℚ := 0.25
def SUB_multiple_roles : ℚ := 0.4
def SUB_wrong_person : ℚ := 0.7
def SUB_auto_reply_blank : ℚ := 0.5
def SUB_already_signed : ℚ := 0.8

/-- Model of `clamp01` of `confidence.ts`. -/
def clamp01 (n : ℚ) : ℚ := if n < 0 then 0 else if 1 < n then 1 else n

/-- Model of `has(sigs, s)`: `sigs.includes(s)`. -/
def has (sigs : List Signal) (s : Signal) : Bool := sigs.contains s

/-- Model of `Classification` of `confidence.ts` (`template_id` is an open string;
the absent id is modelled by any string outside the catalogs). -/
structure Classification where
  template_id : String
  signals : Option (List Signal)

/-- Model of `ThreadState` of `confidence.ts` (the snapshot passed to the engine). -/
structure ThreadState where
  autoRepliesSent : Nat
  agreementSent : Bool
  manualOwner : Bool
  lastTemplateSent : Option String
  processedMessageIds : Option (List String)

/-- The input record of `decideAutoRespond`. -/
structure DecideInput where
  classification : Classification
  bodyText : String
  threadState : ThreadState
  messageId : Option String
  confidenceThreshold : Option ℚ

/-- Model of `ConfidenceDecision` of `confidence.ts`. -/
structure ConfidenceDecision where
  okToAutoRespond : Bool
  confidence : ℚ
  blockingReasons : List String
  normalizedSignals : List Signal
  effectiveTemplateId : String
deriving DecidableEq

/-- Model of `isAgreementRequest` (`confidence.ts` line 259). -/
def isAgreementRequest (template_id : String) (sigs : List Signal) : Bool :=
  template_id == "YES_SEND" || template_id == "ASK_AGREEMENT" ||
  has sigs .send_agreement || has sigs .asks_for_agreement

/-- The effective threshold (`confidence.ts` line 261): `0.60` for
agreement requests, otherwise the supplied threshold defaulting to `0.7`. -/
def effectiveThreshold (template_id : String) (sigs : List Signal)
    (confidenceThreshold : Option ℚ) : ℚ :=
  if isAgreementRequest template_id sigs then 0.60
  else confidenceThreshold.getD 0.7

/-- Duplicate-message check (`confidence.ts` line 328; the empty message id
is falsy in JS and skips the check). -/
def dupMessage (input : DecideInput) : Bool :=
  match input.messageId with
  | none => false
  | some m =>
      if m == "" then false
      else
        match input.threadState.processedMessageIds with
        | none => false
        | some ids => ids.contains m

/-- Duplicate-template check (`confidence.ts` line 333; the empty last
template is falsy in JS and skips the check). -/
def dupTemplate (input : DecideInput) (template_id : String) : Bool :=
  match input.threadState.lastTemplateSent with
  | none => false
  | some t => if t == "" then false else t == template_id

/-- Model of `explicitlyAskingForAgreement` (`confidence.ts` line 345). -/
def explicitlyAskingForAgreement (template_id : String) (sigs : List Signal) :
    Bool :=
  has sigs .send_agreement || has sigs .asks_for_agreement ||
  template_id == "YES_SEND" || template_id == "ASK_AGREEMENT"

/-- The template-specific must-have rules (`confidence.ts` lines 390-416),
in push order. -/
def templateMustHaveBlocking (template_id : String) (sigs : List Signal) :
    List String :=
  (if template_id == "YES_SEND" &&
      !(has sigs .send_agreement || has sigs .asks_for_agreement ||
        has sigs .send_it || has sigs .explicit_yes)
   then ["YES_SEND requires send_agreement OR asks_for_agreement OR send_it OR explicit_yes"]
   else []) ++
  (if template_id == "ASK_AGREEMENT" &&
      !(has sigs .asks_for_agreement || has sigs .send_agreement ||
        has sigs .send_it)
   then ["ASK_AGREEMENT requires asks_for_agreement or send_agreement or send_it"]
   else []) ++
  (if template_id == "ASK_FEES_ONLY" && !(has sigs .asks_fees)
   then ["ASK_FEES_ONLY requires asks_fees"] else []) ++
  (if template_id == "INTERESTED" && has sigs .multi_topic
   then ["INTERESTED blocked: multi_topic (manual)"] else [])

/-- All `blocking.push` reasons collected by `decideAutoRespond` past the
hard stops (`confidence.ts` lines 317-357 and 390-416), in push order. -/
def blockingList (input : DecideInput) (template_id : String)
    (sigs : List Signal) : List String :=
  (if input.threadState.manualOwner
   then ["manualOwner=true (human took over thread)"] else []) ++
  (if 2 ≤ input.threadState.autoRepliesSent &&
      !(DEPTH_WHITELIST.contains template_id)
   then ["depthLimit: autoRepliesSent>=2 and template not whitelisted"]
   else []) ++
  (if dupMessage input then ["duplicateMessageId: already processed"]
   else []) ++
  (if dupTemplate input template_id
   then ["duplicateTemplate: same template already sent last"] else []) ++
  (if !(AUTO_INTENT_WHITELIST.contains template_id)
   then ["templateNotAutoEligible: " ++ template_id] else []) ++
  (if has sigs .wants_resume_first &&
      !(explicitlyAskingForAgreement template_id sigs)
   then ["wants_resume_first (manual)"] else []) ++
  (if has sigs .wants_call_first &&
      !(explicitlyAskingForAgreement template_id sigs)
   then ["wants_call_first (manual)"] else []) ++
  (if has sigs .skeptical && !(explicitlyAskingForAgreement template_id sigs)
   then ["skeptical (manual)"] else []) ++
  (if has sigs .wrong_person then ["wrong_person (manual)"] else []) ++
  templateMustHaveBlocking template_id sigs

/-- The score before clamping (`confidence.ts` lines 360-383). -/
def rawScore (template_id : String) (sigs : List Signal) (bodyText : String)
    (autoRepliesSent : Nat) : ℚ :=
  let trimmed := trimChars bodyText.data
  (BASE template_id).getD 0 +
  (if has sigs .send_agreement then ADD_send_agreement else 0) +
  (if has sigs .asks_for_agreement then ADD_asks_for_agreement else 0) +
  (if has sigs .send_it then ADD_send_it else 0) +
  (if has sigs .explicit_yes then ADD_explicit_yes else 0) +
  (if has sigs .interested then ADD_interested else 0) +
  (if has sigs .asks_fees && template_id == "ASK_FEES_ONLY"
   then ADD_asks_fees else 0) +
  (if 0 < trimmed.length && trimmed.length < 200 then ADD_short_msg else 0) +
  (if autoRepliesSent == 0 then ADD_first_auto_reply else 0) +
  (if !(has sigs .has_question) then ADD_no_question_mark else 0) -
  (if has sigs .has_question then SUB_has_question else 0) -
  (if has sigs .multi_topic then SUB_multi_topic else 0) -
  (if has sigs .wants_resume_first then SUB_wants_resume_first else 0) -
  (if has sigs .wants_call_first then SUB_wants_call_first else 0) -
  (if has sigs .skeptical then SUB_skeptical else 0) -
  (if has sigs .role_ambiguous then SUB_role_ambiguous else 0) -
  (if has sigs .multiple_roles then SUB_multiple_roles else 0) -
  (if has sigs .wrong_person then SUB_wrong_person else 0) -
  (if has sigs .auto_reply_blank then SUB_auto_reply_blank else 0)

/-- The non-hard-stop tail of `decideAutoRespond` (`confidence.ts` lines
316-429): collect blocking reasons, compute the clamped score and compare
it with the effective threshold. -/
def scoringDecision (input : DecideInput) : ConfidenceDecision :=
  let template_id := input.classification.template_id
  let sigs := normalizeSignals input.bodyText input.classification.signals
  let threshold :=
    effectiveThreshold template_id sigs input.confidenceThreshold
  let blocking := blockingList input template_id sigs
  let score :=
    clamp01 (rawScore template_id sigs input.bodyText
      input.threadState.autoRepliesSent)
  let okToAuto := blocking.isEmpty && decide (threshold ≤ score)
  { okToAutoRespond := okToAuto, confidence := score,
    blockingReasons := if okToAuto then [] else blocking,
    normalizedSignals := sigs, effectiveTemplateId := template_id }

/-- Model of `decideAutoRespond` of `confidence.ts`: hard stops first, then the
blocking reasons and the clamped score against the effective threshold. -/
def decideAutoRespond (input : DecideInput) : ConfidenceDecision :=
  let template_id := input.classification.template_id
  let sigs := normalizeSignals input.bodyText input.classification.signals
  if has sigs .unsubscribe || template_id == "UNSUBSCRIBE" then
    { okToAutoRespond := false, confidence := 1,
      blockingReasons := ["UNSUBSCRIBE: hard stop (mark DNC, no reply)"],
      normalizedSignals := sigs, effectiveTemplateId := "UNSUBSCRIBE" }
  else if has sigs .out_of_office || template_id == "OUT_OF_OFFICE" then
    { okToAutoRespond := false, confidence := 1,
      blockingReasons := ["OUT_OF_OFFICE: hard stop (no reply)"],
      normalizedSignals := sigs, effectiveTemplateId := "OUT_OF_OFFICE" }
  else if has sigs .auto_reply_blank || template_id == "AUTO_REPLY_BLANK" then
    { okToAutoRespond := false, confidence := 1,
      blockingReasons := ["AUTO_REPLY_BLANK: hard stop (no reply)"],
      normalizedSignals := sigs, effectiveTemplateId := "AUTO_REPLY_BLANK" }
  else if has sigs .done_all_set || template_id == "DONE_ALL_SET" then
    { okToAutoRespond := false, confidence := 1,
      blockingReasons := ["DONE_ALL_SET: stop automation (no reply recommended)"],
      normalizedSignals := sigs, effectiveTemplateId := "DONE_ALL_SET" }
  else if input.threadState.agreementSent then
    { okToAutoRespond := false, confidence := 1,
      blockingReasons := ["agreementSent=true: automation stopped completely after agreement sent"],
      normalizedSignals := sigs, effectiveTemplateId := template_id }
  else
    scoringDecision input

/-- The five hard-stop conditions of `decideAutoRespond` (stage 1), as one
predicate over the input. -/
def hardStopFires (input : DecideInput) : Bool :=
  let template_id := input.classification.template_id
  let sigs := normalizeSignals input.bodyText input.classification.signals
  has sigs .unsubscribe || template_id == "UNSUBSCRIBE" ||
  has sigs .out_of_office || template_id == "OUT_OF_OFFICE" ||
  has sigs .auto_reply_blank || template_id == "AUTO_REPLY_BLANK" ||
  has sigs .done_all_set || template_id == "DONE_ALL_SET" ||
  input.threadState.agreementSent

/-- The constant threshold `handleReachinboxWebhook` passes to
`decideAutoRespond` (`src/handlers/webhookHandler.ts` line 387). -/
def webhookConfidenceThreshold : ℚ := 0.90

/-- Insert-or-replace on an association list, modelling `Map.set`. -/
def mapSet {α : Type} (k : String) (v : α) :
    List (String × α) → List (String × α)
  | [] => [(k, v)]
  | (k', v') :: rest =>
      if k' == k then (k, v) :: rest else (k', v') :: mapSet k v rest

/-- The module-level `Map`s of `state/threadState.ts`, as one record of
association lists. -/
structure StoreState where
  processedMessages : List (String × Bool)
  threadLoopCounters : List (String × Nat)
  lastTemplateIds : List (String × String)
  unsubscribedLeads : List (String × Bool)
  autoRepliesSent : List (String × Nat)
  agreementSent : List (String × Bool)
  manualOwner : List (String × Bool)
  lockedRoles : List (String × List String)
  lastFrom : List (String × String)

/-- The store before any mutating operation: every map empty. -/
def emptyStore : StoreState :=
  { processedMessages := [], threadLoopCounters := [], lastTemplateIds := [],
    unsubscribedLeads := [], autoRepliesSent := [], agreementSent := [],
    manualOwner := [], lockedRoles := [], lastFrom := [] }

/-- Model of `isProcessed` of `threadState.ts`: `processedMessages.has(messageId)`. -/
def isProcessed (st : StoreState) (messageId : String) : Bool :=
  (st.processedMessages.lookup messageId).isSome

/-- Model of `markProcessed` of `threadState.ts`. -/
def markProcessed (st : StoreState) (messageId : String) : StoreState :=
  { st with processedMessages := mapSet messageId true st.processedMessages }

/-- Model of `getLoopCount` of `threadState.ts`: `threadLoopCounters.get(id) || 0`. -/
def getLoopCount (st : StoreState) (threadId : String) : Nat :=
  (st.threadLoopCounters.lookup threadId).getD 0

/-- Model of `getAutoRepliesSent` of `threadState.ts`: `autoRepliesSent.get(id) || 0`. -/
def getAutoRepliesSent (st : StoreState) (threadId : String) : Nat :=
  (st.autoRepliesSent.lookup threadId).getD 0

/-- Model of `isAgreementSent` of `threadState.ts`: `agreementSent.get(id) || false`. -/
def isAgreementSent (st : StoreState) (threadId : String) : Bool :=
  (st.agreementSent.lookup threadId).getD false

/-- Model of `isManualOwner` of `threadState.ts`: `manualOwner.get(id) || false`. -/
def isManualOwner (st : StoreState) (threadId : String) : Bool :=
  (st.manualOwner.lookup threadId).getD false

/-- Model of `isUnsubscribed` of `threadState.ts`: a falsy (absent or empty) email
is not unsubscribed; otherwise membership of the lowercased, trimmed
address. -/
def isUnsubscribed (st : StoreState) (leadEmail : Option String) : Bool :=
  match leadEmail with
  | none => false
  | some e =>
      if e == "" then false
      else (st.unsubscribedLeads.lookup (jsTrim (jsLower e))).isSome

/-- Model of `getLockedRoles` of `threadState.ts`: `lockedRoles.get(id) || []`. -/
def getLockedRoles (st : StoreState) (threadId : String) : List String :=
  (st.lockedRoles.lookup threadId).getD []

/-- Model of `addLockedRole` of `threadState.ts`: skip falsy / whitespace-only
roles, trim, and append only when the trimmed role is not already present
(exact `includes` test). -/
def addLockedRole (st : StoreState) (threadId role : String) : StoreState :=
  if role == "" then st
  else if jsTrim role == "" then st
  else
    let current := getLockedRoles st threadId
    let normalizedRole := jsTrim role
    if current.contains normalizedRole then st
    else
      { st with
          lockedRoles :=
            mapSet threadId (current ++ [normalizedRole]) st.lockedRoles }

/-! ### Helper lemmas about signal lists -/

theorem mem_uniqueAux (s : Signal) :
    ∀ (l acc : List Signal), s ∈ uniqueAux acc l ↔ s ∈ acc ∨ s ∈ l := by
  intro l
  induction l with
  | nil => intro acc; simp [uniqueAux]
  | cons a rest ih =>
    intro acc
    by_cases hc : acc.contains a = true
    · rw [uniqueAux, if_pos hc, ih]
      have ha : a ∈ acc := List.elem_iff.mp hc
      constructor
      · rintro (h | h)
        · exact Or.inl h
        · exact Or.inr (List.mem_cons_of_mem _ h)
      · rintro (h | h)
        · exact Or.inl h
        · rcases List.mem_cons.mp h with h | h
          · exact Or.inl (h ▸ ha)
          · exact Or.inr h
    · rw [uniqueAux, if_neg hc, ih]
      simp only [List.mem_cons]
      tauto

theorem mem_uniqueSignals (s : Signal) (l : List Signal) :
    s ∈ uniqueSignals l ↔ s ∈ l := by
  rw [uniqueSignals, mem_uniqueAux]
  simp

theorem has_eq_true_iff (sigs : List Signal) (s : Signal) :
    has sigs s = true ↔ s ∈ sigs := List.elem_iff

/-- If the trimmed body is shorter than 2 characters, `normalizeSignals`
emits `auto_reply_blank`. -/
theorem blank_mem_normalizeSignals (bodyText : String)
    (ms : Option (List Signal)) (h : (trimChars bodyText.data).length < 2) :
    Signal.auto_reply_blank ∈ normalizeSignals bodyText ms := by
  simp only [normalizeSignals, mem_uniqueSignals, List.mem_append, if_pos h]
  simp

/-- If at least two strong-intent regexes match, `normalizeSignals` emits
`multi_topic`. -/
theorem multi_topic_mem_normalizeSignals (bodyText : String)
    (ms : Option (List Signal))
    (h : 2 ≤ strongIntents (trimChars bodyText.data)) :
    Signal.multi_topic ∈ normalizeSignals bodyText ms := by
  simp only [normalizeSignals, mem_uniqueSignals, List.mem_append, if_pos h]
  simp

/-! ### C1 -/

/-- C1: whatever the template, body, signals, message id and threshold,
once `threadState.agreementSent` is true every evaluation path of
`decideAutoRespond` (the four earlier hard stops included) returns
`okToAutoRespond = false`. -/
theorem C1_agreement_sent_always_blocks (input : DecideInput)
    (h : input.threadState.agreementSent = true) :
    (decideAutoRespond input).okToAutoRespond = false := by
  simp only [decideAutoRespond]
  repeat' split
  all_goals rfl

def inputAgreementSent : DecideInput where
  classification := { template_id := "YES_SEND", signals := some [.send_agreement] }
  bodyText := "yes please send the agreement"
  threadState :=
    { autoRepliesSent := 0, agreementSent := true, manualOwner := false,
      lastTemplateSent := none, processedMessageIds := none }
  messageId := some "m1"
  confidenceThreshold := some 0.9

/-- C1 witness: a concrete thread with the agreement already sent. -/
theorem C1_witness :
    inputAgreementSent.threadState.agreementSent = true ∧
    (decideAutoRespond inputAgreementSent).okToAutoRespond = false :=
  ⟨rfl, C1_agreement_sent_always_blocks inputAgreementSent rfl⟩

/-! ### Stage-2 helper lemmas -/

theorem isEmpty_false_of_mem {α : Type} {a : α} {l : List α} (h : a ∈ l) :
    l.isEmpty = false := by
  cases l with
  | nil => cases h
  | cons b t => rfl

/-- Past the hard stops, `decideAutoRespond` is the scoring stage. -/
theorem decideAutoRespond_eq_scoring (input : DecideInput)
    (h : hardStopFires input = false) :
    decideAutoRespond input = scoringDecision input := by
  simp only [hardStopFires, Bool.or_eq_false_iff] at h
  simp only [decideAutoRespond]
  repeat' split
  all_goals first | rfl | simp_all

/-- An ineligible template always contributes its blocking reason. -/
theorem not_eligible_mem_blockingList (input : DecideInput) (tid : String)
    (sigs : List Signal) (h : AUTO_INTENT_WHITELIST.contains tid = false) :
    ("templateNotAutoEligible: " ++ tid) ∈ blockingList input tid sigs := by
  have hnm : tid ∉ AUTO_INTENT_WHITELIST := by simpa using h
  simp [blockingList, h]
  tauto

/-- At depth ≥ 2 a non-whitelisted template always contributes the
depth-limit reason. -/
theorem depth_mem_blockingList (input : DecideInput) (tid : String)
    (sigs : List Signal) (h1 : 2 ≤ input.threadState.autoRepliesSent)
    (h2 : DEPTH_WHITELIST.contains tid = false) :
    "depthLimit: autoRepliesSent>=2 and template not whitelisted" ∈
      blockingList input tid sigs := by
  have hnm : tid ∉ DEPTH_WHITELIST := by simpa using h2
  simp [blockingList, h1, h2]
  tauto

/-! ### C2 -/

/-- C2: for any input whose `template_id` is not in
`AUTO_INTENT_WHITELIST` (in particular the empty string modelling an
absent id), `decideAutoRespond` returns — totally, no exception — a
blocking verdict: `okToAutoRespond = false`. -/
theorem C2_ineligible_template_blocks (input : DecideInput)
    (h : AUTO_INTENT_WHITELIST.contains input.classification.template_id
      = false) :
    (decideAutoRespond input).okToAutoRespond = false := by
  have hmem := not_eligible_mem_blockingList input
    input.classification.template_id
    (normalizeSignals input.bodyText input.classification.signals) h
  have hb := isEmpty_false_of_mem hmem
  simp only [decideAutoRespond]
  repeat' split
  all_goals first | rfl | (simp only [scoringDecision]; simp [hb])

def inputUnknownTemplate : DecideInput where
  classification := { template_id := "", signals := none }
  bodyText := "sounds good"
  threadState :=
    { autoRepliesSent := 0, agreementSent := false, manualOwner := false,
      lastTemplateSent := none, processedMessageIds := none }
  messageId := none
  confidenceThreshold := none

/-- C2 witness: a concrete input with an empty (absent) template id. -/
theorem C2_witness :
    AUTO_INTENT_WHITELIST.contains
      inputUnknownTemplate.classification.template_id = false ∧
    (decideAutoRespond inputUnknownTemplate).okToAutoRespond = false :=
  ⟨rfl, C2_ineligible_template_blocks inputUnknownTemplate rfl⟩

/-! ### C3 -/

/-- C3: with no caller-supplied threshold, the effective threshold of an
agreement-related decision is strictly below the one of any
non-agreement decision, and there is a score passing the former but not
the latter. -/
theorem C3_agreement_threshold_relaxed (tid tid2 : String)
    (sigs sigs2 : List Signal)
    (h : isAgreementRequest tid sigs = true)
    (h2 : isAgreementRequest tid2 sigs2 = false) :
    effectiveThreshold tid sigs none < effectiveThreshold tid2 sigs2 none ∧
    ∃ score : ℚ, effectiveThreshold tid sigs none ≤ score ∧
      ¬ effectiveThreshold tid2 sigs2 none ≤ score := by
  rw [effectiveThreshold, if_pos h, effectiveThreshold, if_neg (by simp [h2])]
  refine ⟨by norm_num, 0.65, by norm_num, by norm_num⟩

/-- C3 witness: `ASK_AGREEMENT` versus `INTERESTED` with no model
signals. -/
theorem C3_witness :
    isAgreementRequest "ASK_AGREEMENT" [] = true ∧
    isAgreementRequest "INTERESTED" [] = false ∧
    effectiveThreshold "ASK_AGREEMENT" [] none <
      effectiveThreshold "INTERESTED" [] none :=
  ⟨by decide, by decide,
    (C3_agreement_threshold_relaxed "ASK_AGREEMENT" "INTERESTED" [] []
      (by decide) (by decide)).1⟩

/-! ### C9 -/

/-- C9: the relaxed threshold is the fixed constant `0.60`, whatever
threshold the caller supplies; a non-agreement decision uses exactly the
supplied threshold; for a supplied threshold below `0.60` the relaxation
inverts; and the production orchestrator supplies `0.90`. -/
theorem C9_relaxed_threshold_is_fixed (tid : String) (sigs : List Signal)
    (t : ℚ) :
    (isAgreementRequest tid sigs = true →
      effectiveThreshold tid sigs (some t) = 0.60) ∧
    (isAgreementRequest tid sigs = false →
      effectiveThreshold tid sigs (some t) = t) ∧
    (t < 0.60 → isAgreementRequest tid sigs = true →
      t < effectiveThreshold tid sigs (some t)) ∧
    webhookConfidenceThreshold = 0.90 := by
  refine ⟨fun h => ?_, fun h => ?_, fun hlt h => ?_, rfl⟩
  · rw [effectiveThreshold, if_pos h]
  · rw [effectiveThreshold, if_neg (by simp [h])]
    rfl
  · rw [effectiveThreshold, if_pos h]
    exact hlt

/-- C9 witness: with a supplied threshold `0.50 < 0.60`, the agreement
path requires the strictly higher fixed `0.60`, while a non-agreement
decision keeps the supplied `0.90` of the orchestrator. -/
theorem C9_witness :
    isAgreementRequest "ASK_AGREEMENT" [] = true ∧
    ((0.50 : ℚ) < effectiveThreshold "ASK_AGREEMENT" [] (some 0.50)) ∧
    isAgreementRequest "INTERESTED" [] = false ∧
    effectiveThreshold "INTERESTED" [] (some webhookConfidenceThreshold) =
      webhookConfidenceThreshold :=
  ⟨by decide,
    (C9_relaxed_threshold_is_fixed "ASK_AGREEMENT" [] 0.50).2.2.1
      (by norm_num) (by decide),
    by decide,
    (C9_relaxed_threshold_is_fixed "INTERESTED" []
      webhookConfidenceThreshold).2.1 (by decide)⟩

/-! ### C4 -/

/-- C4: at reply depth ≥ 2 with a template outside `DEPTH_WHITELIST`,
when no stage-1 hard stop fires the decision is blocked — whatever the
score — and the depth-limit reason is reported. -/
theorem C4_depth_limit_blocks (input : DecideInput)
    (h1 : 2 ≤ input.threadState.autoRepliesSent)
    (h2 : DEPTH_WHITELIST.contains input.classification.template_id = false)
    (h3 : hardStopFires input = false) :
    (decideAutoRespond input).okToAutoRespond = false ∧
      "depthLimit: autoRepliesSent>=2 and template not whitelisted" ∈
        (decideAutoRespond input).blockingReasons := by
  have hmem := depth_mem_blockingList input input.classification.template_id
    (normalizeSignals input.bodyText input.classification.signals) h1 h2
  have hb := isEmpty_false_of_mem hmem
  rw [decideAutoRespond_eq_scoring input h3]
  simp only [scoringDecision]
  constructor
  · simp [hb]
  · rw [if_neg (by simp [hb])]
    exact hmem

def inputDepthLimited : DecideInput where
  classification := { template_id := "INTERESTED", signals := none }
  bodyText := "ok"
  threadState :=
    { autoRepliesSent := 2, agreementSent := false, manualOwner := false,
      lastTemplateSent := none, processedMessageIds := none }
  messageId := none
  confidenceThreshold := none

/-- C4 witness: third reply on a thread, template `INTERESTED`. -/
theorem C4_witness :
    2 ≤ inputDepthLimited.threadState.autoRepliesSent ∧
    DEPTH_WHITELIST.contains
      inputDepthLimited.classification.template_id = false ∧
    hardStopFires inputDepthLimited = false ∧
    ((decideAutoRespond inputDepthLimited).okToAutoRespond = false ∧
      "depthLimit: autoRepliesSent>=2 and template not whitelisted" ∈
        (decideAutoRespond inputDepthLimited).blockingReasons) :=
  ⟨by decide, by decide, by decide,
    C4_depth_limit_blocks inputDepthLimited (by decide) (by decide)
      (by decide)⟩

/-! ### C5 -/

theorem has_eq_false_iff (sigs : List Signal) (s : Signal) :
    has sigs s = false ↔ s ∉ sigs := by
  constructor
  · intro hv hm
    rw [(has_eq_true_iff _ _).mpr hm] at hv
    cases hv
  · intro hm
    cases hv : has sigs s with
    | false => rfl
    | true => exact absurd ((has_eq_true_iff _ _).mp hv) hm

theorem has_filter_ne (sigs : List Signal) (s : Signal)
    (hs : s ≠ Signal.multi_topic) :
    has (sigs.filter (fun x => x ≠ Signal.multi_topic)) s = has sigs s := by
  by_cases hm : s ∈ sigs
  · rw [(has_eq_true_iff _ _).mpr hm,
      (has_eq_true_iff _ _).mpr (List.mem_filter.mpr ⟨hm, by simpa using hs⟩)]
  · rw [(has_eq_false_iff _ _).mpr hm,
      (has_eq_false_iff _ _).mpr (fun hc => hm (List.mem_filter.mp hc).1)]

theorem has_filter_multi_topic (sigs : List Signal) :
    has (sigs.filter (fun x => x ≠ Signal.multi_topic))
      Signal.multi_topic = false := by
  rw [has_eq_false_iff]
  intro hc
  have h2 := (List.mem_filter.mp hc).2
  simp at h2

/-- C5: a body on which at least two of the five strong-intent regexes
match always yields `multi_topic` among the normalized signals (whatever
the model supplied), and the scoring stage subtracts exactly the
`multi_topic` penalty relative to the same signal set without
`multi_topic`. -/
theorem C5_multi_topic_penalty (bodyText : String) (ms : Option (List Signal))
    (h : 2 ≤ strongIntents (trimChars bodyText.data)) :
    Signal.multi_topic ∈ normalizeSignals bodyText ms ∧
    ∀ (tid : String) (ars : Nat),
      rawScore tid (normalizeSignals bodyText ms) bodyText ars =
        rawScore tid ((normalizeSignals bodyText ms).filter
          (fun x => x ≠ Signal.multi_topic)) bodyText ars
          - SUB_multi_topic := by
  have hmem := multi_topic_mem_normalizeSignals bodyText ms h
  refine ⟨hmem, fun tid ars => ?_⟩
  have hmt : has (normalizeSignals bodyText ms) Signal.multi_topic = true :=
    (has_eq_true_iff _ _).mpr hmem
  have e1 := has_filter_ne (normalizeSignals bodyText ms) .send_agreement (by decide)
  have e2 := has_filter_ne (normalizeSignals bodyText ms) .asks_for_agreement (by decide)
  have e3 := has_filter_ne (normalizeSignals bodyText ms) .send_it (by decide)
  have e4 := has_filter_ne (normalizeSignals bodyText ms) .explicit_yes (by decide)
  have e5 := has_filter_ne (normalizeSignals bodyText ms) .interested (by decide)
  have e6 := has_filter_ne (normalizeSignals bodyText ms) .asks_fees (by decide)
  have e7 := has_filter_ne (normalizeSignals bodyText ms) .has_question (by decide)
  have e8 := has_filter_ne (normalizeSignals bodyText ms) .wants_resume_first (by decide)
  have e9 := has_filter_ne (normalizeSignals bodyText ms) .wants_call_first (by decide)
  have e10 := has_filter_ne (normalizeSignals bodyText ms) .skeptical (by decide)
  have e11 := has_filter_ne (normalizeSignals bodyText ms) .role_ambiguous (by decide)
  have e12 := has_filter_ne (normalizeSignals bodyText ms) .multiple_roles (by decide)
  have e13 := has_filter_ne (normalizeSignals bodyText ms) .wrong_person (by decide)
  have e14 := has_filter_ne (normalizeSignals bodyText ms) .auto_reply_blank (by decide)
  simp only [rawScore, e1, e2, e3, e4, e5, e6, e7, e8, e9, e10, e11, e12,
    e13, e14, has_filter_multi_topic, hmt, if_true, if_false]
  simp only [Bool.false_eq_true, if_false]
  ring

/-- C5 witness: the body mentions fees and a call, so two detectors fire. -/
theorem C5_witness :
    2 ≤ strongIntents (trimChars (String.data "fee call")) ∧
    Signal.multi_topic ∈ normalizeSignals "fee call" none ∧
    rawScore "INTERESTED" (normalizeSignals "fee call" none) "fee call" 0 =
      rawScore "INTERESTED" ((normalizeSignals "fee call" none).filter
        (fun x => x ≠ Signal.multi_topic)) "fee call" 0 - SUB_multi_topic :=
  ⟨by decide, (C5_multi_topic_penalty "fee call" none (by decide)).1,
    (C5_multi_topic_penalty "fee call" none (by decide)).2 "INTERESTED" 0⟩

/-! ### C6 -/

/-- C6: a body whose trimmed text is shorter than 2 characters always
yields `auto_reply_blank` among the normalized signals and a hard stop:
`okToAutoRespond = false` with confidence exactly 1. -/
theorem C6_blank_body_hard_stop (input : DecideInput)
    (h : (trimChars input.bodyText.data).length < 2) :
    Signal.auto_reply_blank ∈ (decideAutoRespond input).normalizedSignals ∧
    (decideAutoRespond input).okToAutoRespond = false ∧
    (decideAutoRespond input).confidence = 1 := by
  have hmem : Signal.auto_reply_blank ∈
      normalizeSignals input.bodyText input.classification.signals :=
    blank_mem_normalizeSignals _ _ h
  have hhas : has (normalizeSignals input.bodyText
      input.classification.signals) Signal.auto_reply_blank = true :=
    (has_eq_true_iff _ _).mpr hmem
  simp only [decideAutoRespond]
  generalize hS : normalizeSignals input.bodyText
    input.classification.signals = S at hhas hmem ⊢
  by_cases h1 : (has S Signal.unsubscribe ||
      (input.classification.template_id == "UNSUBSCRIBE")) = true
  · rw [if_pos h1]
    exact ⟨hmem, rfl, rfl⟩
  · rw [if_neg h1]
    by_cases h2 : (has S Signal.out_of_office ||
        (input.classification.template_id == "OUT_OF_OFFICE")) = true
    · rw [if_pos h2]
      exact ⟨hmem, rfl, rfl⟩
    · rw [if_neg h2]
      rw [if_pos (show (has S Signal.auto_reply_blank ||
          (input.classification.template_id == "AUTO_REPLY_BLANK")) = true
        by simp [hhas])]
      exact ⟨hmem, rfl, rfl⟩

def inputEmptyBody : DecideInput where
  classification := { template_id := "INTERESTED", signals := some [.interested] }
  bodyText := ""
  threadState :=
    { autoRepliesSent := 0, agreementSent := false, manualOwner := false,
      lastTemplateSent := none, processedMessageIds := none }
  messageId := none
  confidenceThreshold := none

/-- C6 witness: the empty body. -/
theorem C6_witness :
    (trimChars inputEmptyBody.bodyText.data).length < 2 ∧
    (Signal.auto_reply_blank ∈
        (decideAutoRespond inputEmptyBody).normalizedSignals ∧
      (decideAutoRespond inputEmptyBody).okToAutoRespond = false ∧
      (decideAutoRespond inputEmptyBody).confidence = 1) :=
  ⟨by decide, C6_blank_body_hard_stop inputEmptyBody (by decide)⟩

/-! ### C7 -/

theorem lookup_mapSet {α : Type} (k : String) (v : α)
    (m : List (String × α)) : (mapSet k v m).lookup k = some v := by
  induction m with
  | nil => simp [mapSet, List.lookup]
  | cons p t ih =>
    obtain ⟨k', v'⟩ := p
    by_cases hk : k' = k
    · subst hk
      simp [mapSet, List.lookup]
    · have hb : (k' == k) = false := beq_eq_false_iff_ne.mpr hk
      have hb' : (k == k') = false := beq_eq_false_iff_ne.mpr (Ne.symm hk)
      simp [mapSet, hb, List.lookup, hb', ih]

def lockedStoreA : StoreState :=
  { emptyStore with lockedRoles := [("t1", ["Engineer"])] }

/-- C7 counterexample: with `"Engineer"` locked, adding `"engineer"` —
differing only in letter case — does not leave the locked-role set
unchanged: the membership test of `addLockedRole` is case-sensitive and
the role is appended. -/
theorem C7_counterexample :
    getLockedRoles lockedStoreA "t1" = ["Engineer"] ∧
    getLockedRoles (addLockedRole lockedStoreA "t1" "engineer") "t1" =
      ["Engineer", "engineer"] := by
  constructor <;> rfl

/-- C7 (amended): `addLockedRole` appends the whitespace-trimmed role
only when it is not already present under an exact, case-sensitive
membership test: a call whose trimmed role is already locked leaves the
store unchanged, and a call with a fresh non-blank trimmed role appends
exactly that trimmed role. -/
theorem C7_trimmed_case_sensitive_add (st : StoreState) (tid role : String) :
    (jsTrim role ∈ getLockedRoles st tid → addLockedRole st tid role = st) ∧
    (role ≠ "" → jsTrim role ≠ "" →
      jsTrim role ∉ getLockedRoles st tid →
      getLockedRoles (addLockedRole st tid role) tid =
        getLockedRoles st tid ++ [jsTrim role]) := by
  constructor
  · intro hmem
    unfold addLockedRole
    split
    · rfl
    · split
      · rfl
      · rw [if_pos (List.elem_iff.mpr hmem)]
  · intro h1 h2 h3
    unfold addLockedRole
    rw [if_neg (by simp [h1]), if_neg (by simp [h2]),
      if_neg (by simpa using h3)]
    simp only [getLockedRoles, lookup_mapSet]
    rfl

def lockedStoreB : StoreState :=
  { emptyStore with lockedRoles := [("t1", ["Engineer"])] }

/-- C7 witness: a whitespace-only variant of a locked role is a no-op,
and a fresh role is appended in trimmed form. -/
theorem C7_witness :
    (jsTrim " Engineer " ∈ getLockedRoles lockedStoreB "t1" ∧
      addLockedRole lockedStoreB "t1" " Engineer " = lockedStoreB) ∧
    (jsTrim " Recruiter " ∉ getLockedRoles lockedStoreB "t1" ∧
      getLockedRoles (addLockedRole lockedStoreB "t1" " Recruiter ") "t1" =
        getLockedRoles lockedStoreB "t1" ++ [jsTrim " Recruiter "]) :=
  ⟨⟨by decide,
      (C7_trimmed_case_sensitive_add lockedStoreB "t1" " Engineer ").1
        (by decide)⟩,
    ⟨by decide,
      (C7_trimmed_case_sensitive_add lockedStoreB "t1" " Recruiter ").2
        (by decide) (by decide) (by decide)⟩⟩

/-! ### C8 -/

/-- C8: every read accessor of the state store returns the zero/empty
value of its type on a key that is absent from the corresponding map —
unknown threads, messages and addresses are not errors. -/
theorem C8_unknown_keys_return_defaults (st : StoreState)
    (tid mid email : String)
    (h1 : st.autoRepliesSent.lookup tid = none)
    (h2 : st.threadLoopCounters.lookup tid = none)
    (h3 : st.agreementSent.lookup tid = none)
    (h4 : st.manualOwner.lookup tid = none)
    (h5 : st.processedMessages.lookup mid = none)
    (h6 : st.unsubscribedLeads.lookup (jsTrim (jsLower email)) = none)
    (h7 : st.lockedRoles.lookup tid = none) :
    getAutoRepliesSent st tid = 0 ∧ getLoopCount st tid = 0 ∧
    isAgreementSent st tid = false ∧ isManualOwner st tid = false ∧
    isProcessed st mid = false ∧ isUnsubscribed st (some email) = false ∧
    getLockedRoles st tid = [] := by
  refine ⟨?_, ?_, ?_, ?_, ?_, ?_, ?_⟩
  · simp [getAutoRepliesSent, h1]
  · simp [getLoopCount, h2]
  · simp [isAgreementSent, h3]
  · simp [isManualOwner, h4]
  · simp [isProcessed, h5]
  · simp only [isUnsubscribed]
    split
    · rfl
    · simp [h6]
  · simp [getLockedRoles, h7]

/-- C8 witness: the store before any mutating operation, with fresh
thread, message and email keys. -/
theorem C8_witness :
    emptyStore.autoRepliesSent.lookup "t9" = none ∧
    (getAutoRepliesSent emptyStore "t9" = 0 ∧
      getLoopCount emptyStore "t9" = 0 ∧
      isAgreementSent emptyStore "t9" = false ∧
      isManualOwner emptyStore "t9" = false ∧
      isProcessed emptyStore "m9" = false ∧
      isUnsubscribed emptyStore (some "lead@example.com") = false ∧
      getLockedRoles emptyStore "t9" = []) :=
  ⟨rfl, C8_unknown_keys_return_defaults emptyStore "t9" "m9"
    "lead@example.com" rfl rfl rfl rfl rfl rfl rfl⟩

/-! ### C10 -/

def inputBelowThreshold : DecideInput where
  classification := { template_id := "INTERESTED", signals := none }
  bodyText := "??"
  threadState :=
    { autoRepliesSent := 0, agreementSent := false, manualOwner := false,
      lastTemplateSent := none, processedMessageIds := none }
  messageId := none
  confidenceThreshold := none

/-- C10: there is an input — fresh thread, template `INTERESTED`, body
`"??"` (a question and nothing else), default threshold — on which
`decideAutoRespond` blocks (`okToAutoRespond = false`, score `0.55`
below the `0.7` default threshold) while reporting an empty
`blockingReasons` list. -/
theorem C10_blocked_with_empty_reasons :
    (decideAutoRespond inputBelowThreshold).okToAutoRespond = false ∧
    (decideAutoRespond inputBelowThreshold).blockingReasons = [] ∧
    (decideAutoRespond inputBelowThreshold).confidence = 0.55 := by
  refine ⟨?_, ?_, ?_⟩ <;> with_unfolding_all rfl
